import Mathlib

set_option autoImplicit false
set_option maxRecDepth 40000

/-!
Verification development for the Unified Context & Autonomous Workflow
subsystem of the sensei-ai-io repository (Python sources under `src/mcp/`).

The Python data is JSON-like: dictionaries with string keys, lists, strings,
ints, floats and booleans.  We embed it shallowly as `PyVal`; Python dicts are
association lists with unique keys (insertion order preserved, assignment to an
existing key keeps its position, assignment to a fresh key appends at the end).

`datetime.now()` is nondeterministic wall-clock input; we model it as a
monotone counter `clock` threaded through the state, and timestamps as the
(opaque) rendering of that counter.  Nothing below depends on the concrete
timestamp values, only on the fact that a fresh one is drawn per event.
-/

namespace Sensei

/-- JSON-like Python values. `num` stands for Python floats (the repository
only ever produces exactly representable ones such as `1.5`). -/
inductive PyVal where
  | int : Int → PyVal
  | num : Rat → PyVal
  | str : String → PyVal
  | bool : Bool → PyVal
  | none : PyVal
  | list : List PyVal → PyVal
  | dict : List (String × PyVal) → PyVal

/-- A Python dictionary with string keys, as an insertion-ordered
association list (keys unique in every dict the program builds). -/
abbrev Dict := List (String × PyVal)

/-- `d.get(k)` / `d[k]`: first binding of `k`. -/
def dictGet : Dict → String → Option PyVal
  | [], _ => Option.none
  | (k', v) :: r, k => if k' = k then some v else dictGet r k

/-- `d[k] = v`: replace the binding of `k` in place if present (keeping its
position), otherwise append it at the end — exactly Python dict assignment. -/
def dictSet : Dict → String → PyVal → Dict
  | [], k, v => [(k, v)]
  | (k', v') :: r, k, v =>
      if k' = k then (k, v) :: r else (k', v') :: dictSet r k v

/-- `k in d`. -/
def hasKey (d : Dict) (k : String) : Bool :=
  d.any (fun p => p.1 = k)

/-- The keys of a dict, in order. -/
def keysOf (d : Dict) : List String := d.map Prod.fst

/-- Python dicts never have duplicate keys. -/
def NoDupKeys (d : Dict) : Prop := (keysOf d).Nodup

/-- `MCPContext.update_session_data`'s inner `deep_merge(target, source)`
(src/mcp/context.py): for each `key, value` of `source`, if both sides hold a
dict at `key`, recurse; otherwise assign. -/
def deepMerge (t : Dict) : Dict → Dict
  | [] => t
  | (k, PyVal.dict sv) :: rest =>
      (match dictGet t k with
        | some (PyVal.dict tk) => deepMerge (dictSet t k (PyVal.dict (deepMerge tk sv))) rest
        | _ => deepMerge (dictSet t k (PyVal.dict sv)) rest)
  | (k, v) :: rest => deepMerge (dictSet t k v) rest
termination_by d => sizeOf d
decreasing_by all_goals (simp_wf <;> omega)

/-- The Python slice `l[-n:]` for `n ≥ 0`: for `n = 0` this is `l[0:]`, the
whole list (since `-0 == 0`); otherwise the last `min n (length l)` items. -/
def pySliceLast {α : Type} (l : List α) (n : Nat) : List α :=
  if n = 0 then l else l.drop (l.length - n)

/-- The last `min n (length l)` elements of `l`. -/
def takeLast {α : Type} (n : Nat) (l : List α) : List α :=
  l.drop (l.length - n)

/-- The state of `MCPContext` (src/mcp/context.py).  `clock` models
`datetime.now()` as described in the file header. -/
structure MCPContext where
  activities : List Dict
  session_data : Dict
  chat_history : List Dict
  current_script : String
  current_project : String
  clock : Nat

/-- A fresh `MCPContext()`. -/
def ctx0 : MCPContext :=
  { activities := [], session_data := [], chat_history := [],
    current_script := "", current_project := "", clock := 0 }

/-- The `activity["id"] = len(self.activities)` / `activity["timestamp"] = ...`
prefix of `add_activity`. -/
def annotate (c : MCPContext) (activity : Dict) : Dict :=
  dictSet (dictSet activity "id" (PyVal.int c.activities.length))
    "timestamp" (PyVal.str (toString c.clock))

/-- `MCPContext.add_activity` (src/mcp/context.py lines 21-29): assign
`id = len(activities)` and a timestamp, append, and if the log now exceeds
100 entries keep only `activities[-100:]`. -/
def MCPContext.add_activity (c : MCPContext) (activity : Dict) : MCPContext :=
  let acts := c.activities ++ [annotate c activity]
  { c with
    activities := if acts.length > 100 then acts.drop (acts.length - 100) else acts,
    clock := c.clock + 1 }

/-- `MCPContext.update_session_data` (lines 31-49): deep-merge the partial
data into `session_data`, then log a `session_update` activity naming the
top-level keys touched and the post-merge session size. -/
def MCPContext.update_session_data (c : MCPContext) (data : Dict) : MCPContext :=
  let c' := { c with session_data := deepMerge c.session_data data }
  c'.add_activity
    [("type", PyVal.str "session_update"),
     ("keys_updated", PyVal.list ((keysOf data).map PyVal.str)),
     ("session_size", PyVal.int c'.session_data.length)]

/-- `MCPContext.add_chat_message` (lines 51-73): append a message dict with a
generated id, truncate the history to the last 50, then log a `chat_message`
activity carrying role, content length and message id. -/
def MCPContext.add_chat_message (c : MCPContext) (role content : String)
    (metadata : Option Dict) : MCPContext :=
  let mid := "msg_" ++ toString c.chat_history.length ++ "_" ++ toString c.clock
  let message : Dict :=
    [("id", PyVal.str mid),
     ("role", PyVal.str role),
     ("content", PyVal.str content),
     ("timestamp", PyVal.str (toString c.clock)),
     ("metadata", PyVal.dict (metadata.getD []))]
  let hist := c.chat_history ++ [message]
  let c' := { c with
    chat_history := if hist.length > 50 then hist.drop (hist.length - 50) else hist }
  c'.add_activity
    [("type", PyVal.str "chat_message"),
     ("role", PyVal.str role),
     ("content_length", PyVal.int content.length),
     ("message_id", PyVal.str mid)]

/-- `MCPContext.set_current_script` (lines 75-86). -/
def MCPContext.set_current_script (c : MCPContext) (script : String) : MCPContext :=
  let oldLength := c.current_script.length
  let c' := { c with current_script := script }
  c'.add_activity
    [("type", PyVal.str "script_update"),
     ("old_length", PyVal.int oldLength),
     ("new_length", PyVal.int script.length),
     ("change_type", PyVal.str (if oldLength > 0 then "edit" else "create"))]

/-- `MCPContext.set_current_project` (lines 88-98). -/
def MCPContext.set_current_project (c : MCPContext) (project : String) : MCPContext :=
  let oldProject := c.current_project
  let c' := { c with current_project := project }
  c'.add_activity
    [("type", PyVal.str "project_change"),
     ("old_project", PyVal.str oldProject),
     ("new_project", PyVal.str project)]

/-- Boolean rendering of `a.get("type") == activity_type` for a string
`activity_type` (a missing or non-string `type` field never equals it). -/
def typeIs (a : Dict) (t : String) : Bool :=
  match dictGet a "type" with
  | some (PyVal.str s) => s = t
  | _ => false

/-- `MCPContext.get_recent_activities` (lines 100-107).  `ty = none` models a
`None` filter argument; an empty-string filter is falsy in Python and also
disables filtering.  `count` models a nonnegative Python int. -/
def MCPContext.get_recent_activities (c : MCPContext) (count : Nat)
    (ty : Option String) : List Dict :=
  let acts :=
    match ty with
    | some t => if t = "" then c.activities else c.activities.filter (fun a => typeIs a t)
    | Option.none => c.activities
  if acts.isEmpty then [] else pySliceLast acts count

/-- `MCPContext.get_chat_context` (lines 109-111). -/
def MCPContext.get_chat_context (c : MCPContext) (messageCount : Nat) : List Dict :=
  if c.chat_history.isEmpty then [] else pySliceLast c.chat_history messageCount

/-- Fold a sequence of `add_activity` calls. -/
def addActivities (c : MCPContext) (as : List Dict) : MCPContext :=
  as.foldl MCPContext.add_activity c

/-- The annotated activities a sequence of `add_activity` calls appends,
in call order (ghost sequence used to state the retention property). -/
def addedSeq (c : MCPContext) : List Dict → List Dict
  | [] => []
  | a :: rest => annotate c a :: addedSeq (c.add_activity a) rest

/-- Python truthiness of `s.strip()`: true exactly when `s` contains a
non-whitespace character.  (This is the only use the program makes of
`strip`.) -/
def pyStripTruthy (s : String) : Bool :=
  s.data.any (fun c => ¬ c.isWhitespace)

/-- Splitting a character list on whitespace runs, accumulating the current
word in reverse. -/
def wordsChars : List Char → List Char → List (List Char)
  | [], acc => if acc.isEmpty then [] else [acc.reverse]
  | c :: cs, acc =>
      if c.isWhitespace then
        if acc.isEmpty then wordsChars cs [] else acc.reverse :: wordsChars cs []
      else wordsChars cs (c :: acc)

/-- Python `str.split()`: split on runs of whitespace, dropping empties. -/
def pyWords (s : String) : List String :=
  (wordsChars s.data []).map (fun l => String.mk l)

/-- `d.get(k, {})` where the program goes on to treat the result as a dict.
In every state the application builds, these keys hold dicts
(core/config.py initializes them so); a non-dict value would raise in
Python, and the theorems that quantify over states carry the matching
`DictAt` hypothesis. -/
def getDictAt (d : Dict) (k : String) : Dict :=
  match dictGet d k with
  | some (PyVal.dict x) => x
  | _ => []

/-- The value at `k`, when present, is a dict. -/
def DictAt (d : Dict) (k : String) : Prop :=
  ∀ v, dictGet d k = some v → ∃ x, v = PyVal.dict x

/-!
## Unified Context Manager (src/mcp/context_manager.py)

`UCMState` pairs the mirrored `MCPContext` with the externally owned global
`session_data` mapping (core/config.py).  `syncCount` is ghost
instrumentation: it counts the calls to `_sync_to_session_data`, so that
"this method syncs" is a statable property.  The only sync callback the
repository ever registers (src/mcp/integration.py) is a print statement;
callbacks neither mutate state nor feed back into it, so the callback loop
has no modeled effect.
-/

structure UCMState where
  ctx : MCPContext
  external : Dict
  syncCount : Nat

/-- `_sync_to_session_data` (lines 32-47): copy every key of the mirrored
session mapping into the external mapping, then copy `current_project`
when it is nonempty. -/
def syncToSessionData (s : UCMState) : UCMState :=
  let ext := s.ctx.session_data.foldl (fun e kv => dictSet e kv.1 kv.2) s.external
  let ext :=
    if s.ctx.current_project ≠ "" then
      dictSet ext "current_project" (PyVal.str s.ctx.current_project)
    else ext
  { s with external := ext, syncCount := s.syncCount + 1 }

/-- The mirror mutation and `session_update` log of
`UnifiedContextManager.update_project` (lines 53-68), before its sync.  In
Python, `projects` aliases the nested dict inside the mirror, so the
in-place `projects[project_name] = project_data` followed by
`update_session_data({"projects": projects})` deep-merges the updated
mapping with itself — an identity; the net effect on the mirror is exactly
the wholesale replacement below, plus `update_session_data`'s
`session_update` activity. -/
def UCMState.update_project_pre (s : UCMState) (projectName : String)
    (projectData : Dict) : UCMState :=
  let projects := dictSet (getDictAt s.ctx.session_data "projects") projectName
    (PyVal.dict projectData)
  let ctx := { s.ctx with
    session_data := dictSet s.ctx.session_data "projects" (PyVal.dict projects) }
  let ctx := ctx.add_activity
    [("type", PyVal.str "session_update"),
     ("keys_updated", PyVal.list [PyVal.str "projects"]),
     ("session_size", PyVal.int ctx.session_data.length)]
  { s with ctx := ctx }

/-- `UnifiedContextManager.update_project` (lines 53-68): mutate the mirror,
sync, then log the `project_update` activity. -/
def UCMState.update_project (s : UCMState) (projectName : String) (projectData : Dict) :
    UCMState :=
  let s' := syncToSessionData (s.update_project_pre projectName projectData)
  let ctx2 := s'.ctx.add_activity
    [("type", PyVal.str "project_update"),
     ("project_name", PyVal.str projectName),
     ("data_keys", PyVal.list ((keysOf projectData).map PyVal.str))]
  { s' with ctx := ctx2 }

/-- `UnifiedContextManager.set_current_project` (lines 70-73). -/
def UCMState.set_current_project (s : UCMState) (projectName : String) : UCMState :=
  syncToSessionData { s with ctx := s.ctx.set_current_project projectName }

/-- `UnifiedContextManager.update_script` (lines 75-88): update the script
pointer; only when a current project exists *and* is present in the
mirrored `projects` mapping, also update that project's
script/word-count/character-count (the same alias collapse as in
`update_project` applies) and sync.  Otherwise no sync happens at all. -/
def UCMState.update_script (s : UCMState) (scriptContent : String) : UCMState :=
  let s1 : UCMState := { s with ctx := s.ctx.set_current_script scriptContent }
  let cp := s1.ctx.current_project
  let projects := getDictAt s1.ctx.session_data "projects"
  if cp = "" then s1
  else if hasKey projects cp then
    let proj := getDictAt projects cp
    let proj := dictSet proj "script" (PyVal.str scriptContent)
    let proj := dictSet proj "word_count" (PyVal.int (pyWords scriptContent).length)
    let proj := dictSet proj "character_count" (PyVal.int scriptContent.length)
    let projects := dictSet projects cp (PyVal.dict proj)
    let ctx := { s1.ctx with
      session_data := dictSet s1.ctx.session_data "projects" (PyVal.dict projects) }
    let ctx := ctx.add_activity
      [("type", PyVal.str "session_update"),
       ("keys_updated", PyVal.list [PyVal.str "projects"]),
       ("session_size", PyVal.int ctx.session_data.length)]
    syncToSessionData { s1 with ctx := ctx }
  else s1

/-- `UnifiedContextManager.get_session_summary` (lines 130-140). -/
def UCMState.get_session_summary (s : UCMState) : Dict :=
  [("current_project", PyVal.str s.ctx.current_project),
   ("script_length", PyVal.int s.ctx.current_script.length),
   ("total_projects", PyVal.int (getDictAt s.ctx.session_data "projects").length),
   ("chat_messages", PyVal.int s.ctx.chat_history.length),
   ("activities", PyVal.int s.ctx.activities.length),
   ("api_keys_configured",
    PyVal.list ((keysOf (getDictAt s.ctx.session_data "api_keys")).map PyVal.str)),
   ("last_activity",
    match s.ctx.activities.getLast? with
    | some a => PyVal.dict a
    | Option.none => PyVal.none)]

/-- `UnifiedContextManager.add_chat_message` (lines 90-104): build the
metadata (the `if script_context:` guard is falsy for `None` and for the
empty string) and delegate to the context.  Note: this method performs no
sync to the external session mapping. -/
def UCMState.add_chat_message (s : UCMState) (role content : String)
    (scriptContext : Option String) : UCMState :=
  let metadata : Dict :=
    match scriptContext with
    | some sc =>
        if sc = "" then []
        else
          [("script_context", PyVal.dict
             [("length", PyVal.int sc.length),
              ("word_count", PyVal.int (pyWords sc).length),
              ("has_content", PyVal.bool (pyStripTruthy sc))])]
    | Option.none => []
  let metadata := metadata ++
    [("current_project", PyVal.str s.ctx.current_project),
     ("session_state", PyVal.dict s.get_session_summary)]
  { s with ctx := s.ctx.add_chat_message role content (some metadata) }

/-- `UnifiedContextManager.update_settings` (lines 106-112).  In Python
`current_settings` aliases the mirror's nested settings dict and
`dict.update(settings)` mutates it in place (a shallow, key-by-key update);
the subsequent `update_session_data({"settings": current_settings})`
deep-merges the dict with itself — an identity — so the net mirror effect
is exactly the replacement below plus the `session_update` activity. -/
def UCMState.update_settings_pre (s : UCMState) (settings : Dict) : UCMState :=
  let current := settings.foldl (fun d kv => dictSet d kv.1 kv.2)
    (getDictAt s.ctx.session_data "settings")
  let ctx := { s.ctx with
    session_data := dictSet s.ctx.session_data "settings" (PyVal.dict current) }
  let ctx := ctx.add_activity
    [("type", PyVal.str "session_update"),
     ("keys_updated", PyVal.list [PyVal.str "settings"]),
     ("session_size", PyVal.int ctx.session_data.length)]
  { s with ctx := ctx }

/-- `UnifiedContextManager.update_settings`: mutate the mirror, then sync. -/
def UCMState.update_settings (s : UCMState) (settings : Dict) : UCMState :=
  syncToSessionData (s.update_settings_pre settings)

/-- `UnifiedContextManager.set_api_key` (lines 114-128): store the key under
`"<service>_api_key"` in the mirrored `api_keys` mapping (alias collapse as
in `update_settings`), sync, then log an `api_key_update` activity carrying
only the key's length and `bool(api_key.strip())`. -/
def UCMState.set_api_key_pre (s : UCMState) (service apiKey : String) : UCMState :=
  let keys := dictSet (getDictAt s.ctx.session_data "api_keys")
    (service ++ "_api_key") (PyVal.str apiKey)
  let ctx := { s.ctx with
    session_data := dictSet s.ctx.session_data "api_keys" (PyVal.dict keys) }
  let ctx := ctx.add_activity
    [("type", PyVal.str "session_update"),
     ("keys_updated", PyVal.list [PyVal.str "api_keys"]),
     ("session_size", PyVal.int ctx.session_data.length)]
  { s with ctx := ctx }

/-- `UnifiedContextManager.set_api_key` (lines 114-128): store the key, sync,
then log the masked `api_key_update` activity. -/
def UCMState.set_api_key (s : UCMState) (service apiKey : String) : UCMState :=
  let s' := syncToSessionData (s.set_api_key_pre service apiKey)
  let ctx2 := s'.ctx.add_activity
    [("type", PyVal.str "api_key_update"),
     ("service", PyVal.str service),
     ("key_length", PyVal.int apiKey.length),
     ("is_set", PyVal.bool (pyStripTruthy apiKey))]
  { s' with ctx := ctx2 }

/-!
## Autonomous Agent (src/mcp/agent.py)
-/

/-- `AgentStatus` (agent.py lines 14-20). -/
inductive AgentStatus where
  | idle | planning | executing | paused | completed | error
  deriving DecidableEq

/-- The `.value` string of a status. -/
def AgentStatus.value : AgentStatus → String
  | .idle => "idle"
  | .planning => "planning"
  | .executing => "executing"
  | .paused => "paused"
  | .completed => "completed"
  | .error => "error"

/-- `WorkflowResult` (agent.py lines 22-28).  The construction-time
`timestamp` field is used by nothing in the subsystem and is omitted. -/
structure WorkflowResult where
  success : Bool
  data : Option PyVal
  error : Option String

/-- One invocation of the agent's optional external progress callback. -/
structure ProgressNote where
  message : String
  progress : Rat
  status : AgentStatus
  workflow : Option String

/-- `AutonomousAgent` state (agent.py lines 30-40).  `ctx` is the global
`context_manager.mcp_context` that `_notify_progress` logs into; `notes`
records the invocations of the optional external progress callback. -/
structure AgentState where
  status : AgentStatus
  current_workflow : Option String
  execution_queue : List PyVal
  execution_history : List Dict
  ctx : MCPContext
  notes : List ProgressNote

/-- `AutonomousAgent._notify_progress` (lines 46-63): forward to the
callback and log an `agent_progress` activity. -/
def AgentState.notifyProgress (a : AgentState) (message : String) (progress : Rat) :
    AgentState :=
  { a with
    notes := a.notes ++ [⟨message, progress, a.status, a.current_workflow⟩],
    ctx := a.ctx.add_activity
      [("type", PyVal.str "agent_progress"),
       ("message", PyVal.str message),
       ("progress", PyVal.num progress),
       ("status", PyVal.str a.status.value),
       ("workflow",
        match a.current_workflow with
        | some n => PyVal.str n
        | Option.none => PyVal.none)] }

/-- A workflow as the agent sees it: a name, the `initialize` step and the
`execute` step, each allowed to raise (`Except.error` carries `str(e)`).
`run` additionally yields the `(message, progress)` pairs the workflow
sends through the agent's progress callback while executing. -/
structure WorkflowM where
  name : String
  init : Dict → Except String Unit
  run : Dict → List (String × Rat) × Except String WorkflowResult

/-- `AutonomousAgent.execute_workflow` (agent.py lines 65-107): busy fast
path, Planning → initialize → Executing → execute → Completed plus history
bookkeeping, exceptions converted to a failed result after an Error status
and an error notification, and the unconditional `finally` reset of
`current_workflow`/`status`. -/
def AgentState.execute_workflow (a : AgentState) (w : WorkflowM) (params : Dict) :
    WorkflowResult × AgentState :=
  if a.status ≠ AgentStatus.idle then
    ({ success := false, data := Option.none, error := some "Agent is busy" }, a)
  else
    let a1 := { a with status := AgentStatus.planning, current_workflow := some w.name }
    let a1 := a1.notifyProgress ("Starting workflow: " ++ w.name) 0
    let (res, a2) :=
      match w.init params with
      | Except.error e =>
          let msg := "Workflow failed: " ++ e
          let aE := { a1 with status := AgentStatus.error }
          let aE := aE.notifyProgress msg 0
          (({ success := false, data := Option.none, error := some msg } : WorkflowResult), aE)
      | Except.ok _ =>
          let aX := { a1 with status := AgentStatus.executing }
          let (ns, outcome) := w.run params
          let aX := ns.foldl
            (fun (st : AgentState) (p : String × Rat) => st.notifyProgress p.1 p.2) aX
          match outcome with
          | Except.error e =>
              let msg := "Workflow failed: " ++ e
              let aE := { aX with status := AgentStatus.error }
              let aE := aE.notifyProgress msg 0
              (({ success := false, data := Option.none, error := some msg } : WorkflowResult), aE)
          | Except.ok result =>
              let aC := { aX with status := AgentStatus.completed }
              let aC := aC.notifyProgress ("Workflow completed: " ++ w.name) 1
              let aC := { aC with execution_history := aC.execution_history ++
                  [[("workflow", PyVal.str w.name),
                    ("params", PyVal.dict params),
                    ("result", PyVal.bool result.success),
                    ("timestamp", PyVal.str (toString aC.ctx.clock)),
                    ("error",
                     match result.error with
                     | some e => PyVal.str e
                     | Option.none => PyVal.none)]] }
              (result, aC)
    (res, { a2 with current_workflow := Option.none, status := AgentStatus.idle })

/-!
## MCP Server (src/mcp/server.py)
-/

mutual

/-- Python `repr` of a value (nested positions of `str`).  Float formatting
is abstracted by the `Rat` rendering; nothing below depends on it. -/
def pyRepr : PyVal → String
  | PyVal.int i => toString i
  | PyVal.num q => toString q
  | PyVal.str s => "\x27" ++ s ++ "\x27"
  | PyVal.bool b => if b then "True" else "False"
  | PyVal.none => "None"
  | PyVal.list l => "[" ++ pyReprItems l ++ "]"
  | PyVal.dict d => "\x7b" ++ pyReprEntries d ++ "\x7d"

/-- Comma-joined `repr`s of list items. -/
def pyReprItems : List PyVal → String
  | [] => ""
  | [x] => pyRepr x
  | x :: xs => pyRepr x ++ ", " ++ pyReprItems xs

/-- Comma-joined `repr`s of dict entries. -/
def pyReprEntries : List (String × PyVal) → String
  | [] => ""
  | [(k, v)] => "\x27" ++ k ++ "\x27: " ++ pyRepr v
  | (k, v) :: xs => "\x27" ++ k ++ "\x27: " ++ pyRepr v ++ ", " ++ pyReprEntries xs

end

/-- Python `str` of a value (top level: a string renders as itself). -/
def pyStr : PyVal → String
  | PyVal.str s => s
  | v => pyRepr v

/-- The logging truncation of `execute_tool` (server.py line 70):
`str(result)[:200] + "..." if len(str(result)) > 200 else str(result)`. -/
def truncateResult (s : String) : String :=
  if s.length > 200 then s.take 200 ++ "..." else s

/-- A tool as the server sees it: `execute(parameters, context)` receives the
server's live context (it observes any activities already logged), may
mutate it, and either returns a value or raises; on a raise the context
mutations made before the raise persist, so `run` returns the context in
both outcomes. -/
structure ToolM where
  run : Dict → MCPContext → MCPContext × Except String PyVal

/-- `MCPServer` state: the name-keyed tool registry and the server's
context.  (Resources take no part in the claims.) -/
structure ServerState where
  tools : List (String × ToolM)
  context : MCPContext

/-- First tool registered under `n`, if any (registry keys are unique). -/
def lookupTool : List (String × ToolM) → String → Option ToolM
  | [], _ => Option.none
  | (k, t) :: r, n => if k = n then some t else lookupTool r n

/-- `MCPServer.execute_tool` (server.py lines 48-83): raise `ValueError` when
the name is unregistered (before any logging); otherwise log a
`tool_execution` activity, invoke the tool on the updated context, then log
`tool_result` (result string truncated: first 200 characters plus an
ellipsis when longer than 200) or log `tool_error` and re-raise. -/
def ServerState.execute_tool (st : ServerState) (toolName : String) (params : Dict) :
    Except String PyVal × ServerState :=
  match lookupTool st.tools toolName with
  | Option.none => (Except.error ("Tool \x27" ++ toolName ++ "\x27 not found"), st)
  | some tool =>
      let ctx1 := st.context.add_activity
        [("type", PyVal.str "tool_execution"),
         ("tool", PyVal.str toolName),
         ("parameters", PyVal.dict params),
         ("timestamp", PyVal.str (toString st.context.clock))]
      match tool.run params ctx1 with
      | (ctx2, Except.ok r) =>
          let ctx3 := ctx2.add_activity
            [("type", PyVal.str "tool_result"),
             ("tool", PyVal.str toolName),
             ("result", PyVal.str (truncateResult (pyStr r))),
             ("timestamp", PyVal.str (toString ctx2.clock))]
          (Except.ok r, { st with context := ctx3 })
      | (ctx2, Except.error e) =>
          let ctx3 := ctx2.add_activity
            [("type", PyVal.str "tool_error"),
             ("tool", PyVal.str toolName),
             ("error", PyVal.str e),
             ("timestamp", PyVal.str (toString ctx2.clock))]
          (Except.error e, { st with context := ctx3 })

/-!
## Batch Processing Workflow (src/mcp/workflows/batch_processing.py)

The per-item helpers read `item.get("script", "")` / `item.get("name", ...)`
and call string methods on the result; the theorems that quantify over
items assume those fields, when present, are strings (`StrAt` below), which
holds for every item the application constructs — on a non-string Python
would raise inside `_process_item` and produce a `success: false` record
with a different error message. -/

/-- The field at `k`, when present, is a string. -/
def StrAt (d : Dict) (k : String) : Prop :=
  ∀ v, dictGet d k = some v → ∃ x, v = PyVal.str x

/-- `item.get(k, default)` as a string. -/
def getStrAt (d : Dict) (k : String) (default : String) : String :=
  match dictGet d k with
  | some (PyVal.str s) => s
  | _ => default

/-- `BatchProcessingWorkflow._generate_tts_for_item` (lines 79-92). -/
def generateTtsForItem (item : Dict) : Dict :=
  let script := getStrAt item "script" ""
  if ¬ pyStripTruthy script then
    [("success", PyVal.bool false), ("error", PyVal.str "No script content")]
  else
    [("success", PyVal.bool true),
     ("audio_file", PyVal.str ("generated_audio_" ++ getStrAt item "name" "unknown" ++ ".wav")),
     ("duration", PyVal.num (((pyWords script).length : Rat) / 150 * 60))]

/-- `BatchProcessingWorkflow._improve_script_for_item` (lines 94-107). -/
def improveScriptForItem (item : Dict) : Dict :=
  let script := getStrAt item "script" ""
  if ¬ pyStripTruthy script then
    [("success", PyVal.bool false), ("error", PyVal.str "No script content")]
  else
    [("success", PyVal.bool true),
     ("original_length", PyVal.int script.length),
     ("improved_length", PyVal.int (script.length + 50)),
     ("improvements_applied", PyVal.list [PyVal.str "clarity", PyVal.str "tone"])]

/-- `BatchProcessingWorkflow._export_project_for_item` (lines 109-121). -/
def exportProjectForItem (item : Dict) : Dict :=
  let projectName := getStrAt item "name" ""
  if projectName = "" then
    [("success", PyVal.bool false), ("error", PyVal.str "No project name")]
  else
    [("success", PyVal.bool true),
     ("export_file", PyVal.str (projectName ++ "_export.json")),
     ("export_size", PyVal.str "1.2MB")]

/-- `BatchProcessingWorkflow._process_item` (lines 64-77): dispatch on the
operation name; an unknown operation yields a per-item failure record
rather than aborting.  (The surrounding `except` never fires for the
well-formed items the theorems quantify over.) -/
def processItem (item : Dict) (operation : String) : Dict :=
  if operation = "tts_generation" then generateTtsForItem item
  else if operation = "script_improvement" then improveScriptForItem item
  else if operation = "project_export" then exportProjectForItem item
  else [("success", PyVal.bool false),
        ("error", PyVal.str ("Unknown operation: " ++ operation))]

/-- Each item is processed as the dict it is (a non-dict item would raise
in Python; the theorems assume dict items). -/
def asDict : PyVal → Dict
  | PyVal.dict d => d
  | _ => []

/-- The `{item, result, index}` records collected by the batch loop. -/
def batchRecords (items : List PyVal) (operation : String) : List Dict :=
  items.enum.map (fun p =>
    [("item", p.2),
     ("result", PyVal.dict (processItem (asDict p.2) operation)),
     ("index", PyVal.int p.1)])

/-- The truthiness test `r["result"]["success"]` of the summary loop (every
record built by `_process_item` carries a boolean there). -/
def recordSuccess (r : Dict) : Bool :=
  match dictGet r "result" with
  | some (PyVal.dict res) =>
      match dictGet res "success" with
      | some (PyVal.bool b) => b
      | _ => false
  | _ => false

/-- `BatchProcessingWorkflow.execute` (lines 21-62) as the pure outcome plus
the progress notifications it sends. -/
def batchExecute (params : Dict) : List (String × Rat) × Except String WorkflowResult :=
  let items :=
    match dictGet params "items" with
    | some (PyVal.list l) => l
    | _ => []
  let operation :=
    match dictGet params "operation" with
    | some (PyVal.str s) => s
    | _ => "tts_generation"
  if items.isEmpty then
    ([], Except.ok { success := false, data := Option.none,
                     error := some "No items provided for batch processing" })
  else
    let total := items.length
    let records := batchRecords items operation
    let successful := (records.filter recordSuccess).length
    let failed := records.length - successful
    let itemNotes := (List.range total).map (fun i =>
      ("Processing item " ++ toString (i + 1) ++ " of " ++ toString total,
       ((i : Rat) + 1) / (total : Rat)))
    (("Starting batch processing of " ++ toString total ++ " items", (0 : Rat))
       :: itemNotes ++ [("Batch processing completed", (1 : Rat))],
     Except.ok
       { success := true,
         data := some (PyVal.dict
           [("total_items", PyVal.int total),
            ("successful", PyVal.int successful),
            ("failed", PyVal.int failed),
            ("results", PyVal.list (records.map PyVal.dict)),
            ("operation", PyVal.str operation)]),
         error := Option.none })

/-- `Workflow.initialize` (src/mcp/workflows/base.py lines 21-29): store the
params and raise when any declared required parameter is missing (the
message rendering of the missing-keys list is abstracted). -/
def baseInit (requiredParams : List String) (params : Dict) : Except String Unit :=
  let missing := requiredParams.filter (fun p => ¬ hasKey params p)
  if missing.isEmpty then Except.ok ()
  else Except.error ("Missing required parameters: " ++ String.intercalate ", " missing)

/-- `BatchProcessingWorkflow` as a `WorkflowM` (lines 11-19). -/
def batchProcessingWorkflow : WorkflowM :=
  { name := "batch_processing",
    init := baseInit ["items", "operation"],
    run := batchExecute }

/-- The value `deep_merge` leaves at a key bound by the head of the source:
a recursive merge when both sides hold dicts, the source value otherwise. -/
def headMergeVal (o : Option PyVal) (v : PyVal) : PyVal :=
  match o, v with
  | some (PyVal.dict tk), PyVal.dict sv => PyVal.dict (deepMerge tk sv)
  | _, _ => v

/-- The per-key reading of the spec's deep-merge contract: a key absent from
the source keeps the target's binding; a key present in both with dicts on
both sides is merged recursively; otherwise the source value overwrites. -/
def mergeLookupSpec (o : Option PyVal) (sv : Option PyVal) : Option PyVal :=
  match sv with
  | Option.none => o
  | some v => some (headMergeVal o v)

/-- The external session mapping holds every binding of the mirrored
session mapping (the `current_project` key aside, which the sync loop may
overwrite afterwards with the context's current-project pointer). -/
def MirrorReflected (s : UCMState) : Prop :=
  ∀ (k : String) (v : PyVal), k ≠ "current_project" →
    dictGet s.ctx.session_data k = some v → dictGet s.external k = some v

/-!
## Concrete fixtures used by witnesses and counterexamples
-/

/-- A fresh `UnifiedContextManager` state over an empty external mapping. -/
def ucm0 : UCMState := { ctx := ctx0, external := [], syncCount := 0 }

/-- An agent mid-execution (used to exercise the busy fast path). -/
def busyAgent : AgentState :=
  { status := AgentStatus.executing, current_workflow := some "batch_processing",
    execution_queue := [], execution_history := [], ctx := ctx0, notes := [] }

/-- An idle agent. -/
def idleAgent : AgentState :=
  { status := AgentStatus.idle, current_workflow := Option.none,
    execution_queue := [], execution_history := [], ctx := ctx0, notes := [] }

/-- The batch parameters of the C8 scenario:
`items=[{"script":"hello"}, {"script":""}], operation="tts_generation"`. -/
def c8Params : Dict :=
  [("items", PyVal.list
      [PyVal.dict [("script", PyVal.str "hello")],
       PyVal.dict [("script", PyVal.str "")]]),
   ("operation", PyVal.str "tts_generation")]

/-- A tool that succeeds with a fixed value, used to instantiate the server
theorems. -/
def okTool : ToolM := { run := fun _ c => (c, Except.ok (PyVal.str "fine")) }

/-- A tool that raises, used to instantiate the server theorems. -/
def failTool : ToolM := { run := fun _ c => (c, Except.error "boom") }

/-- A server with both sample tools registered. -/
def sampleServer : ServerState :=
  { tools := [("ok", okTool), ("fail", failTool)], context := ctx0 }

/-!
## Lemmas about dictionaries
-/

theorem dictGet_dictSet_self (d : Dict) (k : String) (v : PyVal) :
    dictGet (dictSet d k v) k = some v := by
  induction d with
  | nil => simp [dictSet, dictGet]
  | cons p r ih =>
      obtain ⟨k', v'⟩ := p
      by_cases h : k' = k <;> simp [dictSet, dictGet, h, ih]

theorem dictGet_dictSet_ne (d : Dict) (k : String) (v : PyVal) (k' : String)
    (h : k' ≠ k) : dictGet (dictSet d k v) k' = dictGet d k' := by
  induction d with
  | nil => simp [dictSet, dictGet, Ne.symm h]
  | cons p r ih =>
      obtain ⟨k0, v0⟩ := p
      by_cases h0 : k0 = k
      · subst h0
        simp [dictSet, dictGet, Ne.symm h]
      · simp [dictSet, dictGet, h0, ih]

theorem dictSet_length_congr (d : Dict) (k : String) (v v' : PyVal) :
    (dictSet d k v).length = (dictSet d k v').length := by
  induction d with
  | nil => rfl
  | cons p r ih =>
      obtain ⟨k0, v0⟩ := p
      by_cases h0 : k0 = k <;> simp [dictSet, h0, ih]

theorem mem_keysOf_dictSet (d : Dict) (k : String) (v : PyVal) (x : String) :
    x ∈ keysOf (dictSet d k v) ↔ x ∈ keysOf d ∨ x = k := by
  induction d with
  | nil => simp [dictSet, keysOf]
  | cons p r ih =>
      obtain ⟨k0, v0⟩ := p
      by_cases h0 : k0 = k
      · subst h0
        simp [dictSet, keysOf]
        tauto
      · simp [dictSet, keysOf, h0] at ih ⊢
        tauto

theorem noDupKeys_dictSet (d : Dict) (k : String) (v : PyVal)
    (h : NoDupKeys d) : NoDupKeys (dictSet d k v) := by
  induction d with
  | nil => simp [dictSet, NoDupKeys, keysOf]
  | cons p r ih =>
      obtain ⟨k0, v0⟩ := p
      rw [NoDupKeys, keysOf, List.map_cons, List.nodup_cons] at h
      by_cases h0 : k0 = k
      · subst h0
        rw [NoDupKeys, keysOf]
        simp only [dictSet, if_pos rfl, List.map_cons, List.nodup_cons, ite_true]
        simpa using h
      · rw [NoDupKeys, keysOf]
        simp only [dictSet, if_neg h0, List.map_cons, List.nodup_cons]
        refine ⟨fun hmem => ?_, ih h.2⟩
        rcases (mem_keysOf_dictSet r k v k0).1 (by simpa [keysOf] using hmem) with hin | heq
        · exact h.1 (by simpa [keysOf] using hin)
        · exact h0 heq

theorem dictGet_eq_none_of_not_mem (d : Dict) (k : String)
    (h : ¬ k ∈ keysOf d) : dictGet d k = Option.none := by
  induction d with
  | nil => rfl
  | cons p r ih =>
      obtain ⟨k0, v0⟩ := p
      simp only [keysOf, List.map_cons, List.mem_cons, not_or] at h
      simp [dictGet, Ne.symm h.1, ih (by simpa [keysOf] using h.2)]

theorem deepMerge_cons (t : Dict) (k0 : String) (v : PyVal) (rest : Dict) :
    deepMerge t ((k0, v) :: rest)
      = deepMerge (dictSet t k0 (headMergeVal (dictGet t k0) v)) rest := by
  cases v <;> rcases ho : dictGet t k0 with _ | u <;>
    first
      | (cases u <;> simp [deepMerge, headMergeVal, ho])
      | simp [deepMerge, headMergeVal, ho]

theorem dictGet_deepMerge (s : Dict) : ∀ t : Dict, NoDupKeys s → ∀ k : String,
    dictGet (deepMerge t s) k = mergeLookupSpec (dictGet t k) (dictGet s k) := by
  induction s with
  | nil =>
      intro t _ k
      simp [deepMerge, dictGet, mergeLookupSpec]
  | cons p rest ih =>
      obtain ⟨k0, v⟩ := p
      intro t hnd k
      rw [NoDupKeys, keysOf, List.map_cons, List.nodup_cons] at hnd
      rw [deepMerge_cons, ih _ hnd.2 k]
      by_cases hk : k0 = k
      · subst hk
        rw [dictGet_dictSet_self,
            dictGet_eq_none_of_not_mem rest k0 (by simpa [keysOf] using hnd.1)]
        simp [dictGet, mergeLookupSpec]
      · rw [dictGet_dictSet_ne _ _ _ _ (Ne.symm hk)]
        simp [dictGet, hk]

/-!
## Lemmas about takeLast and the activity log
-/

theorem takeLast_absorb {α : Type} (n : Nat) (l m : List α) :
    takeLast n (takeLast n l ++ m) = takeLast n (l ++ m) := by
  unfold takeLast
  rw [List.drop_append_eq_append_drop, List.drop_append_eq_append_drop, List.drop_drop]
  have h1 : l.length - n + ((l.drop (l.length - n) ++ m).length - n)
      = (l ++ m).length - n := by
    simp only [List.length_append, List.length_drop]
    omega
  have h2 : (l.drop (l.length - n) ++ m).length - n - (l.drop (l.length - n)).length
      = (l ++ m).length - n - l.length := by
    simp only [List.length_append, List.length_drop]
    omega
  rw [h1, h2]

theorem add_activity_activities (c : MCPContext) (a : Dict) :
    (c.add_activity a).activities = takeLast 100 (c.activities ++ [annotate c a]) := by
  simp only [MCPContext.add_activity, takeLast]
  split
  · rfl
  · next h =>
      have h0 : (c.activities ++ [annotate c a]).length - 100 = 0 := by
        simp only [List.length_append, List.length_cons, List.length_nil] at h ⊢
        omega
      rw [h0, List.drop_zero]

theorem add_activity_length (c : MCPContext) (a : Dict) :
    (c.add_activity a).activities.length = min 100 (c.activities.length + 1) := by
  rw [add_activity_activities, takeLast]
  simp only [List.length_drop, List.length_append, List.length_cons, List.length_nil]
  omega

theorem addActivities_activities (as : List Dict) : ∀ c : MCPContext,
    c.activities.length ≤ 100 →
    (addActivities c as).activities = takeLast 100 (c.activities ++ addedSeq c as) := by
  induction as with
  | nil =>
      intro c h
      simp [addActivities, addedSeq, takeLast, Nat.sub_eq_zero_of_le h]
  | cons a rest ih =>
      intro c h
      have hlen : (c.add_activity a).activities.length ≤ 100 := by
        rw [add_activity_length]
        omega
      have hrec : (addActivities c (a :: rest)).activities
          = takeLast 100 ((c.add_activity a).activities ++ addedSeq (c.add_activity a) rest) := by
        simpa [addActivities] using ih (c.add_activity a) hlen
      rw [hrec, add_activity_activities, takeLast_absorb]
      simp [addedSeq, List.append_assoc]

theorem dictGet_foldl_dictSet_not_mem (m : Dict) : ∀ (e : Dict) (k : String),
    ¬ k ∈ keysOf m →
    dictGet (m.foldl (fun acc kv => dictSet acc kv.1 kv.2) e) k = dictGet e k := by
  induction m with
  | nil => intro e k _; rfl
  | cons p r ih =>
      obtain ⟨k0, v0⟩ := p
      intro e k h
      simp only [keysOf, List.map_cons, List.mem_cons, not_or] at h
      rw [List.foldl_cons, ih _ _ (by simpa [keysOf] using h.2)]
      exact dictGet_dictSet_ne _ _ _ _ h.1

theorem dictGet_foldl_dictSet_mem (m : Dict) : ∀ (e : Dict) (k : String) (v : PyVal),
    NoDupKeys m → dictGet m k = some v →
    dictGet (m.foldl (fun acc kv => dictSet acc kv.1 kv.2) e) k = some v := by
  induction m with
  | nil => intro e k v _ h; cases h
  | cons p r ih =>
      obtain ⟨k0, v0⟩ := p
      intro e k v hnd hget
      rw [NoDupKeys, keysOf, List.map_cons, List.nodup_cons] at hnd
      rw [List.foldl_cons]
      by_cases hk : k0 = k
      · subst hk
        have hv : v0 = v := by simpa [dictGet] using hget
        subst hv
        rw [dictGet_foldl_dictSet_not_mem r _ _ (by simpa [keysOf] using hnd.1)]
        exact dictGet_dictSet_self _ _ _
      · exact ih _ _ _ hnd.2 (by simpa [dictGet, hk] using hget)

theorem syncToSessionData_reflects (st : UCMState)
    (h : NoDupKeys st.ctx.session_data) : MirrorReflected (syncToSessionData st) := by
  intro k v hk hget
  have hbase : dictGet (st.ctx.session_data.foldl
      (fun acc kv => dictSet acc kv.1 kv.2) st.external) k = some v :=
    dictGet_foldl_dictSet_mem _ _ _ _ h hget
  simp only [syncToSessionData]
  split
  · rw [dictGet_dictSet_ne _ _ _ _ hk]
    exact hbase
  · exact hbase

theorem add_activity_congr (c c' : MCPContext) (e e' : Dict)
    (hA : c.activities = c'.activities) (hC : c.clock = c'.clock) (he : e = e') :
    (c.add_activity e).activities = (c'.add_activity e').activities ∧
    (c.add_activity e).clock = (c'.add_activity e').clock := by
  subst he
  constructor <;> simp [MCPContext.add_activity, annotate, hA, hC]

@[simp] theorem add_activity_session_data (c : MCPContext) (e : Dict) :
    (c.add_activity e).session_data = c.session_data := rfl

@[simp] theorem add_activity_current_project (c : MCPContext) (e : Dict) :
    (c.add_activity e).current_project = c.current_project := rfl

@[simp] theorem add_activity_current_script (c : MCPContext) (e : Dict) :
    (c.add_activity e).current_script = c.current_script := rfl

/-!
## Claim theorems
-/

/-- C10: at the public read interface a count of 0 means all, not none —
for a non-empty activity log `get_recent_activities 0` with no type filter
returns the entire log, and for a non-empty chat history `get_chat_context 0`
returns the entire history (the Python slice `l[-0:]` is `l[0:]`). -/
theorem count_zero_returns_all (c : MCPContext)
    (ha : c.activities ≠ []) (hc : c.chat_history ≠ []) :
    c.get_recent_activities 0 Option.none = c.activities ∧
    c.get_chat_context 0 = c.chat_history := by
  constructor <;>
    simp [MCPContext.get_recent_activities, MCPContext.get_chat_context,
      pySliceLast, ha, hc]

/-- Witness for C10 at a context holding one activity and one chat message. -/
theorem count_zero_returns_all_witness :
    (ctx0.add_chat_message "user" "hi" Option.none).get_recent_activities 0 Option.none =
      (ctx0.add_chat_message "user" "hi" Option.none).activities ∧
    (ctx0.add_chat_message "user" "hi" Option.none).get_chat_context 0 =
      (ctx0.add_chat_message "user" "hi" Option.none).chat_history :=
  count_zero_returns_all (ctx0.add_chat_message "user" "hi" Option.none)
    (by exact List.cons_ne_nil _ _) (by exact List.cons_ne_nil _ _)

/-- C5: when the agent's status is anything but Idle, `execute_workflow`
returns the failed busy result and leaves the entire agent state — status,
current workflow, history, context, notifications — untouched, so the
in-flight workflow's outcome cannot be affected. -/
theorem busy_agent_rejected_without_state_change
    (a : AgentState) (w : WorkflowM) (params : Dict)
    (h : a.status ≠ AgentStatus.idle) :
    a.execute_workflow w params =
      ({ success := false, data := Option.none, error := some "Agent is busy" }, a) := by
  simp [AgentState.execute_workflow, h]

/-- Witness for C5: a second call while the agent is Executing. -/
theorem busy_agent_rejected_without_state_change_witness :
    busyAgent.execute_workflow batchProcessingWorkflow c8Params =
      ({ success := false, data := Option.none, error := some "Agent is busy" }, busyAgent) :=
  busy_agent_rejected_without_state_change busyAgent batchProcessingWorkflow c8Params
    (by intro h; cases h)

/-- C2 is violated by the code: `add_activity` assigns `id = len(activities)`
and the truncation caps the length at 100, so once the 101st call has been
made every further activity receives id 100.  After 102 calls the 99th and
100th retained activities (the 101st and 102nd ever logged) both carry
id 100 — ids are not strictly increasing. -/
theorem activity_ids_repeat_after_truncation :
    (((addActivities ctx0 (List.replicate 102 [])).activities.get? 98).bind
        (fun a => dictGet a "id") = some (PyVal.int 100)) ∧
    (((addActivities ctx0 (List.replicate 102 [])).activities.get? 99).bind
        (fun a => dictGet a "id") = some (PyVal.int 100)) :=
  ⟨rfl, rfl⟩

/-- C3: after any sequence of `add_activity` calls (from any state whose log
is within the bound, in particular a fresh context), the log is exactly the
most recent 100 (or fewer) of the activities ever added, in call order, and
its length never exceeds 100. -/
theorem activity_log_keeps_most_recent_100 (c : MCPContext) (as : List Dict)
    (h : c.activities.length ≤ 100) :
    (addActivities c as).activities = takeLast 100 (c.activities ++ addedSeq c as) ∧
    (addActivities c as).activities.length ≤ 100 := by
  refine ⟨addActivities_activities as c h, ?_⟩
  rw [addActivities_activities as c h, takeLast]
  simp only [List.length_drop]
  omega

/-- Witness for C3 on a fresh context and two concrete calls. -/
theorem activity_log_keeps_most_recent_100_witness :
    (addActivities ctx0 [[("type", PyVal.str "x")], []]).activities
      = takeLast 100 (ctx0.activities ++ addedSeq ctx0 [[("type", PyVal.str "x")], []]) ∧
    (addActivities ctx0 [[("type", PyVal.str "x")], []]).activities.length ≤ 100 :=
  activity_log_keeps_most_recent_100 ctx0 [[("type", PyVal.str "x")], []] (by decide)

/-- C6: `update_session_data` merges its argument into the session mapping
with `deep_merge`: per key, nested dicts merge recursively and non-dict
values overwrite; in particular updating `settings.volume` and then
`settings.speed` leaves a settings mapping holding both. -/
theorem update_session_data_deep_merges :
    (∀ (c : MCPContext) (d : Dict),
        (c.update_session_data d).session_data = deepMerge c.session_data d) ∧
    (∀ (t s : Dict), NoDupKeys s → ∀ k : String,
        dictGet (deepMerge t s) k = mergeLookupSpec (dictGet t k) (dictGet s k)) ∧
    (dictGet ((ctx0.update_session_data
          [("settings", PyVal.dict [("volume", PyVal.int 50)])]).update_session_data
          [("settings", PyVal.dict [("speed", PyVal.num (3/2))])]).session_data "settings"
        = some (PyVal.dict [("volume", PyVal.int 50), ("speed", PyVal.num (3/2))])) := by
  refine ⟨fun c d => rfl, fun t s h k => dictGet_deepMerge s t h k, ?_⟩
  simp [MCPContext.update_session_data, deepMerge, dictSet, dictGet]

/-- Witness for C6 on concrete dicts, discharging the no-duplicate-keys
hypothesis. -/
theorem update_session_data_deep_merges_witness :
    dictGet (deepMerge [("a", PyVal.int 1)] [("a", PyVal.int 2)]) "a"
      = mergeLookupSpec (dictGet [("a", PyVal.int 1)] "a")
          (dictGet [("a", PyVal.int 2)] "a") :=
  update_session_data_deep_merges.2.1 [("a", PyVal.int 1)] [("a", PyVal.int 2)]
    (by simp [NoDupKeys, keysOf]) "a"

/-- C4: entered while Idle, `execute_workflow` always returns with the agent
reset — status Idle and no current workflow, by the unconditional `finally` —
and an exception raised by `initialize` or `execute` never propagates: it is
converted into a failed `WorkflowResult` carrying the error message, while a
normal completion returns the workflow's own result. -/
theorem execute_workflow_resets_and_catches
    (a : AgentState) (w : WorkflowM) (params : Dict)
    (h : a.status = AgentStatus.idle) :
    ((a.execute_workflow w params).2.status = AgentStatus.idle ∧
     (a.execute_workflow w params).2.current_workflow = Option.none) ∧
    (∀ e, w.init params = Except.error e →
      (a.execute_workflow w params).1 =
        { success := false, data := Option.none,
          error := some ("Workflow failed: " ++ e) }) ∧
    (∀ ns e, w.init params = Except.ok () → w.run params = (ns, Except.error e) →
      (a.execute_workflow w params).1 =
        { success := false, data := Option.none,
          error := some ("Workflow failed: " ++ e) }) ∧
    (∀ ns r, w.init params = Except.ok () → w.run params = (ns, Except.ok r) →
      (a.execute_workflow w params).1 = r) := by
  have hcond : ¬ a.status ≠ AgentStatus.idle := by simp [h]
  rcases hinit : w.init params with e0 | u
  · refine ⟨?_, ?_, ?_, ?_⟩
    · constructor <;> simp [AgentState.execute_workflow, hcond, hinit]
    · intro e he
      cases he
      simp [AgentState.execute_workflow, hcond, hinit]
    · intro ns e hok
      cases hok
    · intro ns r hok
      cases hok
  · rcases hrun : w.run params with ⟨ns0, outcome⟩
    rcases outcome with e0 | r0
    · refine ⟨?_, ?_, ?_, ?_⟩
      · constructor <;> simp [AgentState.execute_workflow, hcond, hinit, hrun]
      · intro e he
        cases he
      · intro ns e _ hr
        cases hr
        simp [AgentState.execute_workflow, hcond, hinit, hrun]
      · intro ns r _ hr
        cases hr
    · refine ⟨?_, ?_, ?_, ?_⟩
      · constructor <;> simp [AgentState.execute_workflow, hcond, hinit, hrun]
      · intro e he
        cases he
      · intro ns e _ hr
        cases hr
      · intro ns r _ hr
        cases hr
        simp [AgentState.execute_workflow, hcond, hinit, hrun]

/-- Witness for C4: the idle agent runs the batch workflow with empty
params; `initialize` raises (missing required parameters), the agent ends
Idle with no workflow, and the caller receives a failed result. -/
theorem execute_workflow_resets_and_catches_witness :
    ((idleAgent.execute_workflow batchProcessingWorkflow []).2.status = AgentStatus.idle ∧
     (idleAgent.execute_workflow batchProcessingWorkflow []).2.current_workflow
        = Option.none) ∧
    (idleAgent.execute_workflow batchProcessingWorkflow []).1 =
      { success := false, data := Option.none,
        error := some ("Workflow failed: " ++ "Missing required parameters: items, operation") } :=
  ⟨(execute_workflow_resets_and_catches idleAgent batchProcessingWorkflow [] rfl).1,
   (execute_workflow_resets_and_catches idleAgent batchProcessingWorkflow [] rfl).2.1
     "Missing required parameters: items, operation" rfl⟩

/-- C7: `execute_tool` on an unregistered name fails with the not-found
error before logging or invoking anything (the state is untouched); on a
registered name the tool is invoked on the context that already holds the
`tool_execution` entry, a success logs `tool_result` with the result string
truncated at the 200-character threshold, and a raise logs `tool_error`
carrying the message and re-raises the same error to the caller. -/
theorem execute_tool_logs_and_propagates
    (st : ServerState) (toolName : String) (params : Dict) :
    (lookupTool st.tools toolName = Option.none →
      st.execute_tool toolName params
        = (Except.error ("Tool \x27" ++ toolName ++ "\x27 not found"), st)) ∧
    (∀ tool, lookupTool st.tools toolName = some tool →
      ∀ ctx2 outcome,
        tool.run params (st.context.add_activity
          [("type", PyVal.str "tool_execution"),
           ("tool", PyVal.str toolName),
           ("parameters", PyVal.dict params),
           ("timestamp", PyVal.str (toString st.context.clock))]) = (ctx2, outcome) →
        (∀ r, outcome = Except.ok r →
          (st.execute_tool toolName params).1 = Except.ok r ∧
          (st.execute_tool toolName params).2.context = ctx2.add_activity
            [("type", PyVal.str "tool_result"),
             ("tool", PyVal.str toolName),
             ("result", PyVal.str (truncateResult (pyStr r))),
             ("timestamp", PyVal.str (toString ctx2.clock))]) ∧
        (∀ e, outcome = Except.error e →
          (st.execute_tool toolName params).1 = Except.error e ∧
          (st.execute_tool toolName params).2.context = ctx2.add_activity
            [("type", PyVal.str "tool_error"),
             ("tool", PyVal.str toolName),
             ("error", PyVal.str e),
             ("timestamp", PyVal.str (toString ctx2.clock))])) ∧
    (∀ s : String,
      (s.length ≤ 200 → truncateResult s = s) ∧
      (s.length > 200 → truncateResult s = s.take 200 ++ "...")) := by
  refine ⟨fun h => ?_, fun tool htool ctx2 outcome hrun => ⟨fun r hr => ?_, fun e he => ?_⟩,
    fun s => ⟨fun hle => ?_, fun hgt => ?_⟩⟩
  · simp [ServerState.execute_tool, h]
  · subst hr
    constructor <;> simp [ServerState.execute_tool, htool, hrun]
  · subst he
    constructor <;> simp [ServerState.execute_tool, htool, hrun]
  · simp [truncateResult]
    omega
  · simp [truncateResult, hgt]

/-- Witness for C7: the not-found fast path on a concrete server, and the
truncation rule on a short string. -/
theorem execute_tool_logs_and_propagates_witness :
    sampleServer.execute_tool "missing" []
      = (Except.error ("Tool \x27" ++ "missing" ++ "\x27 not found"), sampleServer) ∧
    truncateResult "hi" = "hi" :=
  ⟨(execute_tool_logs_and_propagates sampleServer "missing" []).1 rfl,
   ((execute_tool_logs_and_propagates sampleServer "hi" []).2.2 "hi").1 (by decide)⟩

/-- C8: the batch workflow on a non-empty item list succeeds with a summary
reporting total_items = number of items, successful = the count of per-item
results carrying success true, failed = the rest, the full per-item record
list and the operation; every item gets its own record (a failing item does
not abort the batch).  On the concrete scenario
`items=[{"script":"hello"},{"script":""}], operation="tts_generation"` the
summary is total 2 / successful 1 / failed 1 and the second record's result
has success false. -/
theorem batch_processing_counts_and_isolates
    (params : Dict) (items : List PyVal) (operation : String)
    (hi : dictGet params "items" = some (PyVal.list items))
    (hne : items ≠ [])
    (hop : dictGet params "operation" = some (PyVal.str operation)) :
    ((batchExecute params).2 = Except.ok
      { success := true,
        data := some (PyVal.dict
          [("total_items", PyVal.int items.length),
           ("successful", PyVal.int ((batchRecords items operation).filter recordSuccess).length),
           ("failed", PyVal.int ((batchRecords items operation).length
              - ((batchRecords items operation).filter recordSuccess).length)),
           ("results", PyVal.list ((batchRecords items operation).map PyVal.dict)),
           ("operation", PyVal.str operation)]),
        error := Option.none }) ∧
    ((batchRecords items operation).length = items.length) ∧
    (∀ i item, items.get? i = some item →
      (batchRecords items operation).get? i = some
        [("item", item),
         ("result", PyVal.dict (processItem (asDict item) operation)),
         ("index", PyVal.int i)]) ∧
    ((batchRecords
        [PyVal.dict [("script", PyVal.str "hello")], PyVal.dict [("script", PyVal.str "")]]
        "tts_generation").map recordSuccess = [true, false]) ∧
    ((batchExecute c8Params).2 = Except.ok
      { success := true,
        data := some (PyVal.dict
          [("total_items", PyVal.int 2),
           ("successful", PyVal.int 1),
           ("failed", PyVal.int 1),
           ("results", PyVal.list ((batchRecords
              [PyVal.dict [("script", PyVal.str "hello")],
               PyVal.dict [("script", PyVal.str "")]] "tts_generation").map PyVal.dict)),
           ("operation", PyVal.str "tts_generation")]),
        error := Option.none }) := by
  refine ⟨?_, ?_, ?_, rfl, rfl⟩
  · have hfl := List.length_filter_le recordSuccess (batchRecords items operation)
    simp [batchExecute, hi, hop, hne]
    omega
  · simp [batchRecords, List.enum_length]
  · intro i item hgi
    have hgi' : items[i]? = some item := by rwa [List.get?_eq_getElem?] at hgi
    simp [batchRecords, List.getElem?_map, List.getElem?_enum, hgi']

/-- Witness for C8 at the concrete scenario parameters. -/
theorem batch_processing_counts_and_isolates_witness :
    (batchRecords
        [PyVal.dict [("script", PyVal.str "hello")], PyVal.dict [("script", PyVal.str "")]]
        "tts_generation").length
      = ([PyVal.dict [("script", PyVal.str "hello")],
          PyVal.dict [("script", PyVal.str "")]] : List PyVal).length :=
  (batch_processing_counts_and_isolates c8Params
    [PyVal.dict [("script", PyVal.str "hello")], PyVal.dict [("script", PyVal.str "")]]
    "tts_generation" rfl (by exact List.cons_ne_nil _ _) rfl).2.1

/-- C9 as stated is false: the `api_key_update` entry records
`bool(api_key.strip())`, not non-emptiness.  The keys `"a"` and `" "` have
equal length and are both non-empty, yet the entries logged from the same
starting state differ (their `is_set` fields are `true` and `false`). -/
theorem api_key_entry_reveals_blankness :
    ("a" : String).length = (" " : String).length ∧
    ("a" : String) ≠ "" ∧ (" " : String) ≠ "" ∧
    (ucm0.set_api_key "svc" "a").ctx.activities.getLast?
      ≠ (ucm0.set_api_key "svc" " ").ctx.activities.getLast? := by
  refine ⟨rfl, by decide, by decide, fun h => ?_⟩
  have h2 : ((ucm0.set_api_key "svc" "a").ctx.activities.getLast?).bind
        (fun d => dictGet d "is_set")
      = ((ucm0.set_api_key "svc" " ").ctx.activities.getLast?).bind
        (fun d => dictGet d "is_set") := by
    rw [h]
  have h3 : some (PyVal.bool true) = some (PyVal.bool false) := h2
  simp at h3

/-- C9 amended: the `api_key_update` entry records only the key's length and
the truthiness of its stripped form — for any two keys of equal length whose
stripped forms are equally (non-)empty, `set_api_key` from the same state
produces identical activity logs, so the logged data never depends on the
key's content beyond length and blankness. -/
theorem api_key_logging_depends_only_on_shape
    (s : UCMState) (service k1 k2 : String)
    (hlen : k1.length = k2.length)
    (hblank : pyStripTruthy k1 = pyStripTruthy k2) :
    (s.set_api_key service k1).ctx.activities
      = (s.set_api_key service k2).ctx.activities := by
  have hsz : (dictSet s.ctx.session_data "api_keys"
        (PyVal.dict (dictSet (getDictAt s.ctx.session_data "api_keys")
          (service ++ "_api_key") (PyVal.str k1)))).length
      = (dictSet s.ctx.session_data "api_keys"
        (PyVal.dict (dictSet (getDictAt s.ctx.session_data "api_keys")
          (service ++ "_api_key") (PyVal.str k2)))).length :=
    dictSet_length_congr _ _ _ _
  have hE : ([("type", PyVal.str "session_update"),
       ("keys_updated", PyVal.list [PyVal.str "api_keys"]),
       ("session_size", PyVal.int (dictSet s.ctx.session_data "api_keys"
          (PyVal.dict (dictSet (getDictAt s.ctx.session_data "api_keys")
            (service ++ "_api_key") (PyVal.str k1)))).length)] : Dict)
      = [("type", PyVal.str "session_update"),
         ("keys_updated", PyVal.list [PyVal.str "api_keys"]),
         ("session_size", PyVal.int (dictSet s.ctx.session_data "api_keys"
            (PyVal.dict (dictSet (getDictAt s.ctx.session_data "api_keys")
              (service ++ "_api_key") (PyVal.str k2)))).length)] := by
    rw [hsz]
  have hF : ([("type", PyVal.str "api_key_update"),
       ("service", PyVal.str service),
       ("key_length", PyVal.int k1.length),
       ("is_set", PyVal.bool (pyStripTruthy k1))] : Dict)
      = [("type", PyVal.str "api_key_update"),
         ("service", PyVal.str service),
         ("key_length", PyVal.int k2.length),
         ("is_set", PyVal.bool (pyStripTruthy k2))] := by
    rw [hlen, hblank]
  simp only [UCMState.set_api_key, syncToSessionData]
  exact (add_activity_congr _ _ _ _
    (add_activity_congr _ _ _ _ rfl rfl hE).1
    (add_activity_congr _ _ _ _ rfl rfl hE).2 hF).1

/-- Witness for C9 (amended) on two distinct keys of equal shape. -/
theorem api_key_logging_depends_only_on_shape_witness :
    (ucm0.set_api_key "svc" "ab").ctx.activities
      = (ucm0.set_api_key "svc" "cd").ctx.activities :=
  api_key_logging_depends_only_on_shape ucm0 "svc" "ab" "cd" rfl rfl

/-- C1 as stated is false: `add_chat_message` performs no sync at all (the
sync counter does not move and the external mapping is untouched), and
`update_script` with no current project does not sync either. -/
theorem add_chat_message_never_syncs :
    (ucm0.add_chat_message "user" "hello" Option.none).syncCount = ucm0.syncCount ∧
    (ucm0.add_chat_message "user" "hello" Option.none).external = ucm0.external ∧
    (ucm0.update_script "hello").syncCount = ucm0.syncCount ∧
    (ucm0.update_script "hello").external = ucm0.external :=
  ⟨rfl, rfl, rfl, rfl⟩

/-- C1 amended: `update_project`, `set_current_project`, `update_settings`
and `set_api_key` each end with exactly one sync pushing the mirrored
session mapping into the external mapping (every mirrored key is copied,
with the nonempty current-project pointer written over the
`current_project` key); `update_script` syncs only when a current project
exists and is present in the mirrored projects mapping; `add_chat_message`
never syncs and leaves the external mapping untouched. -/
theorem mutation_sync_discipline (s : UCMState) :
    (∀ name pdata, (s.update_project name pdata).syncCount = s.syncCount + 1 ∧
       (NoDupKeys s.ctx.session_data → MirrorReflected (s.update_project name pdata))) ∧
    (∀ name, (s.set_current_project name).syncCount = s.syncCount + 1 ∧
       (NoDupKeys s.ctx.session_data → MirrorReflected (s.set_current_project name)) ∧
       (name ≠ "" → dictGet (s.set_current_project name).external "current_project"
          = some (PyVal.str name))) ∧
    (∀ settings, (s.update_settings settings).syncCount = s.syncCount + 1 ∧
       (NoDupKeys s.ctx.session_data → MirrorReflected (s.update_settings settings))) ∧
    (∀ service key, (s.set_api_key service key).syncCount = s.syncCount + 1 ∧
       (NoDupKeys s.ctx.session_data → MirrorReflected (s.set_api_key service key))) ∧
    (∀ content, (s.update_script content).syncCount =
       (if s.ctx.current_project ≠ "" ∧
           hasKey (getDictAt s.ctx.session_data "projects") s.ctx.current_project = true
        then s.syncCount + 1 else s.syncCount)) ∧
    (∀ role content sc, (s.add_chat_message role content sc).syncCount = s.syncCount ∧
       (s.add_chat_message role content sc).external = s.external) := by
  refine ⟨fun name pdata => ⟨rfl, fun hnd => ?_⟩,
    fun name => ⟨rfl, fun hnd => ?_, fun hne => ?_⟩,
    fun settings => ⟨rfl, fun hnd => ?_⟩,
    fun service key => ⟨rfl, fun hnd => ?_⟩,
    fun content => ?_,
    fun role content sc => ⟨rfl, rfl⟩⟩
  · exact fun k v hk hget =>
      syncToSessionData_reflects (s.update_project_pre name pdata)
        (noDupKeys_dictSet _ _ _ hnd) k v hk hget
  · exact fun k v hk hget =>
      syncToSessionData_reflects { s with ctx := s.ctx.set_current_project name }
        hnd k v hk hget
  · simp only [UCMState.set_current_project, syncToSessionData,
      MCPContext.set_current_project, MCPContext.add_activity]
    rw [if_pos hne]
    exact dictGet_dictSet_self _ _ _
  · exact fun k v hk hget =>
      syncToSessionData_reflects (s.update_settings_pre settings)
        (noDupKeys_dictSet _ _ _ hnd) k v hk hget
  · exact fun k v hk hget =>
      syncToSessionData_reflects (s.set_api_key_pre service key)
        (noDupKeys_dictSet _ _ _ hnd) k v hk hget
  · by_cases h1 : s.ctx.current_project = ""
    · simp [UCMState.update_script, MCPContext.set_current_script, h1]
    · by_cases h2 : hasKey (getDictAt s.ctx.session_data "projects")
          s.ctx.current_project = true
      · simp [UCMState.update_script, MCPContext.set_current_script,
          syncToSessionData, h1, h2]
      · simp [UCMState.update_script, MCPContext.set_current_script, h1, h2]

/-- Witness for C1 (amended): on a fresh manager, `update_settings` syncs
once and its mirrored `settings` key lands in the external mapping. -/
theorem mutation_sync_discipline_witness :
    (ucm0.update_settings [("volume", PyVal.int 80)]).syncCount = ucm0.syncCount + 1 ∧
    dictGet (ucm0.update_settings [("volume", PyVal.int 80)]).external "settings"
      = some (PyVal.dict [("volume", PyVal.int 80)]) :=
  ⟨((mutation_sync_discipline ucm0).2.2.1 [("volume", PyVal.int 80)]).1,
   ((mutation_sync_discipline ucm0).2.2.1 [("volume", PyVal.int 80)]).2
     (by simp [NoDupKeys, keysOf, ucm0, ctx0]) "settings" (PyVal.dict [("volume", PyVal.int 80)])
     (by decide) rfl⟩

end Sensei
